import Mathlib

/-!
# Channel routing of the websocket client (v2/websocket/channels.go)

A shallow embedding of the frame router of the Bitfinex websocket client:
`handleChannel`, `handleChecksumChannel`, `handlePublicChannel`,
`handlePrivateChannel`, `handleHeartbeat`, `handlePrivateDataMessage` and
`convertRaw`.

The client is a record of the pieces of state that the router reads or writes.
Every handler is a function from a client state to a new client state and an
`Outcome`: either a normal return (with an optional error) or a Go runtime
panic.  Collaborators whose code lives in other files of the repository (the
decoders of package bitfinex, the public factories, the transport, the nonce
source, the order-book checksum) are fields of `Env`.
-/

set_option autoImplicit false

namespace Websocket

/-! ## Data model -/

/-- A decoded JSON value, as `encoding/json` stores it in an `interface{}`.
A JSON number is decoded as a float64; the model carries integral numbers within
the int64 range, on which the conversions `int64(f)` and `int(f)` of
channels.go are the identity. -/
inductive JSON where
  | null : JSON
  | bool (b : Bool) : JSON
  | num (n : Int) : JSON
  | str (s : String) : JSON
  | arr (xs : List JSON) : JSON
  | obj (kvs : List (String × JSON)) : JSON

/-- An error value.  Each constructor is one place where an error is created. -/
inductive Error where
  /-- json.Unmarshal could not store the message in a slice -/
  | unmarshal : Error
  /-- the error "expected message to start with a channel id but got %#v instead" -/
  | expectedChannelID (got : JSON) : Error
  /-- lookupByChannelID found no subscription for the channel id -/
  | notSubscribed (chanID : Int) : Error
  /-- the error "could not find public factory for %s channel" -/
  | noPublicFactory (channel : String) : Error
  /-- the error "term %q not recognized" -/
  | termNotRecognized (term : String) : Error
  /-- an error returned by a collaborator (decoder, factory, transport) -/
  | other (text : String) : Error

/-- A dynamic value sent to the listener channel (a Go `interface{}`): a pointer to
a typed record of package bitfinex, named by its type, or an error value. -/
inductive Value where
  | typed (typeName : String) (fields : List JSON) : Value
  | error (e : Error) : Value

/-- The fields of SubscriptionRequest that channels.go reads and writes. -/
structure SubscriptionRequest where
  SubID : String
  Event : String
  Channel : String
  Symbol : String
  deriving DecidableEq, Repr

/-- Modelled from the spec: the subscription record of the registry (declared in
subscriptions.go, absent here), with the fields channels.go reads: the channel id,
the visibility and the request. -/
structure subscription where
  ChanID : Int
  Public : Bool
  Request : SubscriptionRequest
  deriving DecidableEq, Repr

/-- Modelled from the spec: the registry (subscriptions.go, absent here) is the index
from channel id to active subscription together with the heartbeat record
`channelId -> lastSeenTimestamp`. -/
structure subscriptions where
  subs : List subscription
  lastSeen : List (Int × Nat)
  deriving DecidableEq, Repr

/-- Modelled from the spec: lookupByChannelID (subscriptions.go, absent here) returns
the active subscription that owns the channel id and fails if there is none. -/
def lookupByChannelID (s : subscriptions) (chanID : Int) : Except Error subscription :=
  match s.subs.find? (fun sub => sub.ChanID == chanID) with
  | some sub => .ok sub
  | none => .error (.notSubscribed chanID)

/-- Modelled from the spec: heartbeat (subscriptions.go, absent here) records the
time `now` as the last-seen timestamp of the channel id. -/
def subscriptions.heartbeat (s : subscriptions) (chanID : Int) (now : Nat) : subscriptions :=
  { s with lastSeen := (chanID, now) :: s.lastSeen.filter (fun p => p.1 != chanID) }

/-- The last-seen timestamp recorded for a channel id. -/
def subscriptions.lastSeenOf (s : subscriptions) (chanID : Int) : Option Nat :=
  (s.lastSeen.find? (fun p => p.1 == chanID)).map Prod.snd

/-- Modelled from the spec: the locally reconstructed order book (orderbook.go, absent
here): the price levels of each side as (price, amount) pairs. -/
structure Orderbook where
  bids : List (Int × Int)
  asks : List (Int × Int)
  deriving DecidableEq, Repr

/-- An outbound call made by the router: `sendUnsubscribeMessage(ctx, chanId)` or
`Subscribe(ctx, req)`. -/
inductive Request where
  | unsubscribe (chanID : Int) : Request
  | subscribe (req : SubscriptionRequest) : Request
  deriving DecidableEq, Repr

/-- One call of the client's logger in channels.go. -/
inductive LogEntry where
  /-- Logged by Error: "Unable to parse checksum" -/
  | unableToParseChecksum : LogEntry
  /-- Logged by Debugf: "Orderbook '%s' checksum verification successful." -/
  | checksumSuccessful (symbol : String) : LogEntry
  /-- Logged by Warningf: "Orderbook '%s' checksum is invalid got %d bot got %d. ..." -/
  | checksumInvalid (symbol : String) (bChecksum oChecksum : Nat) : LogEntry
  /-- Logged by Warningf: "could not resubscribe: %s" -/
  | couldNotResubscribe (e : Error) : LogEntry
  /-- Logged by Warningf: "could not find chanID: %#v" -/
  | couldNotFindChanID (raw : List JSON) : LogEntry
  /-- Logged by Warningf: "unhandled channel data, term: %s" -/
  | unhandledChannelData (term : String) : LogEntry

/-- The state of the client that channels.go reads or writes. -/
structure Client where
  /-- the registry and heartbeat record -/
  subscriptions : subscriptions
  /-- c.orderbooks: symbol to order-book pointer (none is a nil pointer) -/
  orderbooks : List (String × Option Orderbook)
  /-- values sent to c.listener, oldest first -/
  listener : List Value
  /-- calls of sendUnsubscribeMessage and Subscribe, oldest first -/
  requests : List Request
  /-- number of identifiers drawn from c.nonce so far -/
  nonce : Nat
  /-- calls of c.log, oldest first -/
  log : List LogEntry

/-- A public factory (c.factories[channel]).  Build and BuildSnapshot return a message
(none is nil) or an error; they may mutate the order books of the client. -/
structure Factory where
  Build : List (String × Option Orderbook) → Int → String → List JSON → JSON →
    List (String × Option Orderbook) × Except Error (Option Value)
  BuildSnapshot : List (String × Option Orderbook) → Int → List (List JSON) → JSON →
    List (String × Option Orderbook) × Except Error (Option Value)

/-- The collaborators of channels.go whose code is in other files. -/
structure Env where
  /-- Orderbook.Checksum; its uint32 result type is applied by `Orderbook.Checksum` -/
  checksum : Orderbook → Nat
  /-- the error returned by sendUnsubscribeMessage, if any -/
  unsubscribeErr : Int → Option Error
  /-- the error returned by Subscribe, if any -/
  subscribeErr : SubscriptionRequest → Option Error
  /-- the n-th identifier of the nonce source -/
  nonceAt : Nat → String
  /-- c.factories -/
  factories : String → Option Factory
  /-- bitfinex.ToInterfaceArray; none is a panic -/
  ToInterfaceArray : List JSON → Option (List (List JSON))
  /-- the decoders bitfinex.New...FromRaw, named by the function -/
  fromRaw : String → List JSON → Except Error (List JSON)
  /-- bitfinex.NewMarginInfoFromRaw, which returns an interface value -/
  marginInfoFromRaw : List JSON → Except Error (Option Value)

/-- How a handler ends: a normal return with its error result (none is nil), or a
runtime panic. -/
inductive Outcome where
  | ret (err : Option Error) : Outcome
  | panic (reason : String) : Outcome

/-- The conversion `uint32(checksum)` of a Go int. -/
def uint32 (n : Int) : Nat := (n % 2 ^ 32).toNat

/-- The method Orderbook.Checksum, of result type uint32. -/
def Orderbook.Checksum (env : Env) (ob : Orderbook) : Nat := env.checksum ob % 2 ^ 32

/-- The map read `c.orderbooks[symbol]` with its ok flag. -/
def lookupOrderbook (obs : List (String × Option Orderbook)) (symbol : String) :
    Option (Option Orderbook) :=
  (obs.find? (fun p => p.1 == symbol)).map Prod.snd

/-- The call sendUnsubscribeMessage(ctx, chanId): the call is recorded and the
transport decides whether it fails. -/
def sendUnsubscribeMessage (env : Env) (c : Client) (chanId : Int) : Client × Option Error :=
  ({ c with requests := c.requests ++ [.unsubscribe chanId] }, env.unsubscribeErr chanId)

/-- The call Subscribe(ctx, req): the call is recorded and the transport decides
whether it fails. -/
def Subscribe (env : Env) (c : Client) (req : SubscriptionRequest) : Client × Option Error :=
  ({ c with requests := c.requests ++ [.subscribe req] }, env.subscribeErr req)

/-- The call c.nonce.GetNonce(): the next identifier of the source. -/
def GetNonce (env : Env) (c : Client) : Client × String :=
  ({ c with nonce := c.nonce + 1 }, env.nonceAt c.nonce)

/-! ## The handlers of channels.go -/

/-- The type assertion `v.(string)` with its ok flag. -/
def JSON.asString : JSON → Option String
  | .str s => some s
  | _ => none

/-- The type assertion to a slice of interface values, with its ok flag. -/
def JSON.asSlice : JSON → Option (List JSON)
  | .arr xs => some xs
  | _ => none

/-- The checksum handler handleChecksumChannel(chanId, checksum). -/
def handleChecksumChannel (env : Env) (c : Client) (chanId : Int) (checksum : Int) :
    Client × Outcome :=
  match lookupByChannelID c.subscriptions chanId with
  | .error err => (c, .ret (some err))
  | .ok sub =>
    let symbol := sub.Request.Symbol
    let bChecksum := uint32 checksum
    let orderbook : Option Orderbook :=
      match lookupOrderbook c.orderbooks symbol with
      | some ob => ob
      | none => none
    match orderbook with
    | some ob =>
      let oChecksum := Orderbook.Checksum env ob
      if bChecksum = oChecksum then
        ({ c with log := c.log ++ [.checksumSuccessful symbol] }, .ret none)
      else
        let c1 := { c with log := c.log ++ [.checksumInvalid symbol bChecksum oChecksum] }
        match sendUnsubscribeMessage env c1 chanId with
        | (c2, some err) => (c2, .ret (some err))
        | (c2, none) =>
          let (c3, subID) := GetNonce env c2
          let newSub : SubscriptionRequest :=
            { SubID := subID
              Event := sub.Request.Event
              Channel := sub.Request.Channel
              Symbol := sub.Request.Symbol }
          match Subscribe env c3 newSub with
          | (c4, some err_sub) =>
            ({ c4 with log := c4.log ++ [.couldNotResubscribe err_sub] }, .ret (some err_sub))
          | (c4, none) => (c4, .ret none)
    | none => (c, .ret none)

/-- The public data handler handlePublicChannel(chanID, channel, objType, data, raw_msg). -/
def handlePublicChannel (env : Env) (c : Client) (chanID : Int) (channel objType : String)
    (data : List JSON) (raw_msg : JSON) : Client × Outcome :=
  match env.factories channel with
  | some factory =>
    match data with
    | [] => (c, .ret none)
    | .arr _ :: _ =>
      match env.ToInterfaceArray data with
      | none => (c, .panic "interface conversion in ToInterfaceArray")
      | some interfaceArray =>
        match factory.BuildSnapshot c.orderbooks chanID interfaceArray raw_msg with
        | (obs, .error err) => ({ c with orderbooks := obs }, .ret (some err))
        | (obs, .ok (some msg)) =>
          ({ c with orderbooks := obs, listener := c.listener ++ [msg] }, .ret none)
        | (obs, .ok none) => ({ c with orderbooks := obs }, .ret none)
    | _ :: _ =>
      match factory.Build c.orderbooks chanID objType data raw_msg with
      | (obs, .error err) => ({ c with orderbooks := obs }, .ret (some err))
      | (obs, .ok (some msg)) =>
        ({ c with orderbooks := obs, listener := c.listener ++ [msg] }, .ret none)
      | (obs, .ok none) => ({ c with orderbooks := obs }, .ret none)
  | none => (c, .ret (some (.noPublicFactory channel)))

/-- The method handleHeartbeat(chanID). -/
def handleHeartbeat (now : Nat) (c : Client) (chanID : Int) : Client :=
  { c with subscriptions := c.subscriptions.heartbeat chanID now }

/-- The shape shared by most cases of convertRaw: run the decoder, return its error as
the value if it fails, and otherwise the decoded record under its event type. -/
def decodeAs (env : Env) (decoder typeName : String) (raw : List JSON) : Option Value :=
  match env.fromRaw decoder raw with
  | .error err => some (.error err)
  | .ok o => some (.typed typeName o)

/-- The conversion convertRaw(term, raw); none is a nil interface. -/
def convertRaw (env : Env) (c : Client) (term : String) (raw : List JSON) :
    Client × Option Value :=
  match term with
  | "bu" => (c, decodeAs env "NewBalanceInfoFromRaw" "BalanceUpdate" raw)
  | "ps" => (c, decodeAs env "NewPositionSnapshotFromRaw" "PositionSnapshot" raw)
  | "pn" => (c, decodeAs env "NewPositionFromRaw" "PositionNew" raw)
  | "pu" => (c, decodeAs env "NewPositionFromRaw" "PositionUpdate" raw)
  | "pc" => (c, decodeAs env "NewPositionFromRaw" "PositionCancel" raw)
  | "ws" => (c, decodeAs env "NewWalletSnapshotFromRaw" "WalletSnapshot" raw)
  | "wu" => (c, decodeAs env "NewWalletFromRaw" "WalletUpdate" raw)
  | "os" => (c, decodeAs env "NewOrderSnapshotFromRaw" "OrderSnapshot" raw)
  | "on" => (c, decodeAs env "NewOrderFromRaw" "OrderNew" raw)
  | "ou" => (c, decodeAs env "NewOrderFromRaw" "OrderUpdate" raw)
  | "oc" => (c, decodeAs env "NewOrderFromRaw" "OrderCancel" raw)
  | "hts" =>
    (c, decodeAs env "NewTradeExecutionUpdateSnapshotFromRaw" "HistoricalTradeSnapshot" raw)
  | "te" => (c, decodeAs env "NewTradeExecutionFromRaw" "TradeExecution" raw)
  | "tu" => (c, decodeAs env "NewTradeExecutionUpdateFromRaw" "TradeExecutionUpdate" raw)
  | "fte" => (c, decodeAs env "NewFundingTradeFromRaw" "FundingTradeExecution" raw)
  | "ftu" => (c, decodeAs env "NewFundingTradeFromRaw" "FundingTradeUpdate" raw)
  | "hfts" =>
    (c, decodeAs env "NewFundingTradeSnapshotFromRaw" "HistoricalFundingTradeSnapshot" raw)
  | "n" => (c, decodeAs env "NewNotificationFromRaw" "Notification" raw)
  | "fos" => (c, decodeAs env "NewFundingOfferSnapshotFromRaw" "FundingOfferSnapshot" raw)
  | "fon" => (c, decodeAs env "NewOfferFromRaw" "FundingOfferNew" raw)
  | "fou" => (c, decodeAs env "NewOfferFromRaw" "FundingOfferUpdate" raw)
  | "foc" => (c, decodeAs env "NewOfferFromRaw" "FundingOfferCancel" raw)
  | "fiu" => (c, decodeAs env "NewFundingInfoFromRaw" "FundingInfo" raw)
  | "fcs" => (c, decodeAs env "NewFundingCreditSnapshotFromRaw" "FundingCreditSnapshot" raw)
  | "fcn" => (c, decodeAs env "NewCreditFromRaw" "FundingCreditNew" raw)
  | "fcu" => (c, decodeAs env "NewCreditFromRaw" "FundingCreditUpdate" raw)
  | "fcc" => (c, decodeAs env "NewCreditFromRaw" "FundingCreditCancel" raw)
  | "fls" => (c, decodeAs env "NewFundingLoanSnapshotFromRaw" "FundingLoanSnapshot" raw)
  | "fln" => (c, decodeAs env "NewLoanFromRaw" "FundingLoanNew" raw)
  | "flu" => (c, decodeAs env "NewLoanFromRaw" "FundingLoanUpdate" raw)
  | "flc" => (c, decodeAs env "NewLoanFromRaw" "FundingLoanCancel" raw)
  | "hb" => (c, some (.typed "Heartbeat" []))
  | "ats" => (c, none)
  | "oc-req" => (c, none)
  | "on-req" => (c, none)
  | "mis" => (c, none)
  | "miu" =>
    match env.marginInfoFromRaw raw with
    | .error err => (c, some (.error err))
    | .ok o => (c, o)
  | _ =>
    ({ c with log := c.log ++ [.unhandledChannelData term] },
      some (.error (.termNotRecognized term)))

/-- The decoder entry handlePrivateDataMessage(term, data): the value and the error. -/
def handlePrivateDataMessage (env : Env) (c : Client) (term : String) (data : List JSON) :
    Client × Option Value × Option Error :=
  if data.length = 0 then (c, none, none)
  else if term = "hb" then (c, some (.typed "Heartbeat" []), none)
  else
    let (c1, ms) := convertRaw env c term data
    (c1, ms, none)

/-- The private handler handlePrivateChannel(raw). -/
def handlePrivateChannel (env : Env) (now : Nat) (c : Client) (raw : List JSON) :
    Client × Outcome :=
  match raw.get? 1 with
  | none => (c, .panic "index out of range [1]")
  | some r1 =>
    if r1.asString = some "hb" then
      match raw.get? 0 with
      | some (.num chanID) => (handleHeartbeat now c chanID, .ret none)
      | _ => ({ c with log := c.log ++ [.couldNotFindChanID raw] }, .ret none)
    else if raw.length > 2 then
      match raw.get? 2 with
      | some (.arr arr) =>
        match r1 with
        | .str term =>
          match handlePrivateDataMessage env c term arr with
          | (c1, _, some err) => (c1, .ret (some err))
          | (c1, some obj, none) => ({ c1 with listener := c1.listener ++ [obj] }, .ret none)
          | (c1, none, none) => (c1, .ret none)
        | _ => (c, .panic "interface conversion: interface is not string")
      | _ => (c, .ret none)
    else (c, .ret none)

/-- The decoding `json.Unmarshal(msg, &raw)` into a slice of interface values: an
array fills the slice, null leaves it nil, any other value is an error. -/
def unmarshal (msg : JSON) : Except Error (List JSON) :=
  match msg with
  | .arr xs => .ok xs
  | .null => .ok []
  | _ => .error .unmarshal

/-- The router handleChannel(socketId, msg), run at time `now` on the parsed message. -/
def handleChannel (env : Env) (now : Nat) (c : Client) (msg : JSON) : Client × Outcome :=
  match unmarshal msg with
  | .error err => (c, .ret (some err))
  | .ok raw =>
    if raw.length < 2 then (c, .ret none)
    else
      match raw.get? 0 with
      | some (.num chID) =>
        let chanID := chID
        match lookupByChannelID c.subscriptions chanID with
        | .error err => (c, .ret (some err))
        | .ok sub =>
          let c1 := { c with subscriptions := c.subscriptions.heartbeat chanID now }
          if sub.Public then
            match raw.get? 1 with
            | some (.str data) =>
              if data = "hb" then (c1, .ret none)
              else if data = "cs" then
                match raw.get? 2 with
                | none => (c1, .panic "index out of range [2]")
                | some (.num checksum) => handleChecksumChannel env c1 chanID checksum
                | some _ =>
                  ({ c1 with log := c1.log ++ [.unableToParseChecksum] }, .ret none)
              else
                match raw.get? 2 with
                | none => (c1, .panic "index out of range [2]")
                | some (.arr body) =>
                  handlePublicChannel env c1 chanID sub.Request.Channel data body msg
                | some _ => (c1, .panic "interface conversion: interface is not a slice")
            | some (.arr data) =>
              handlePublicChannel env c1 chanID sub.Request.Channel "" data msg
            | _ => (c1, .ret none)
          else handlePrivateChannel env now c1 raw
      | some got => (c, .ret (some (.expectedChannelID got)))
      | none => (c, .panic "index out of range [0]")

/-- The subscribe request built by the recovery of handleChecksumChannel. -/
def newSubOf (env : Env) (c : Client) (sub : subscription) : SubscriptionRequest :=
  { SubID := env.nonceAt c.nonce
    Event := sub.Request.Event
    Channel := sub.Request.Channel
    Symbol := sub.Request.Symbol }

/-- The case labels of the switch of convertRaw: the terms it handles. -/
def convertRawTerms : List String :=
  ["bu", "ps", "pn", "pu", "pc", "ws", "wu", "os", "on", "ou", "oc", "hts", "te", "tu",
   "fte", "ftu", "hfts", "n", "fos", "fon", "fou", "foc", "fiu", "fcs", "fcn", "fcu", "fcc",
   "fls", "fln", "flu", "flc", "hb", "ats", "oc-req", "on-req", "mis", "miu"]

/-! ## A concrete client, used to run the handlers on explicit frames -/

/-- A factory that wraps what it is given: a snapshot is one message holding the inner
arrays in order, an update is one message holding the fields. -/
def demoFactory : Factory where
  Build := fun obs _ _ data _ => (obs, .ok (some (.typed "Update" data)))
  BuildSnapshot := fun obs _ items _ => (obs, .ok (some (.typed "Snapshot" (items.map .arr))))

/-- Collaborators that never fail: the checksum of a book is the sum of its bid prices,
the n-th nonce is n + 1 letters, the channels book and trades have a factory, and a
decoder keeps the raw fields. -/
def demoEnv : Env where
  checksum := fun ob => (ob.bids.map (fun p => p.1.toNat)).sum
  unsubscribeErr := fun _ => none
  subscribeErr := fun _ => none
  nonceAt := fun n => String.mk (List.replicate (n + 1) 'n')
  factories := fun channel =>
    if channel = "book" ∨ channel = "trades" then some demoFactory else none
  ToInterfaceArray := fun xs => xs.mapM JSON.asSlice
  fromRaw := fun _ raw => .ok raw
  marginInfoFromRaw := fun raw => .ok (some (.typed "MarginInfoBase" raw))

/-- The collaborators of demoEnv with a transport that rejects every unsubscribe. -/
def unsubFailEnv : Env :=
  { demoEnv with unsubscribeErr := fun _ => some (.other "unsubscribe failed") }

/-- The collaborators of demoEnv with a transport that rejects every subscribe. -/
def subFailEnv : Env :=
  { demoEnv with subscribeErr := fun _ => some (.other "subscribe failed") }

/-- The public book subscription on channel 5. -/
def bookSub : subscription :=
  { ChanID := 5, Public := true,
    Request := { SubID := "s5", Event := "subscribe", Channel := "book", Symbol := "tBTCUSD" } }

/-- The private account subscription on channel 9. -/
def accountSub : subscription :=
  { ChanID := 9, Public := false,
    Request := { SubID := "s9", Event := "auth", Channel := "account", Symbol := "" } }

/-- A client with a public book channel 5 whose local checksum is 12345 and a private
channel 9; nothing sent, published or logged yet. -/
def demoClient : Client where
  subscriptions := { subs := [bookSub, accountSub], lastSeen := [] }
  orderbooks := [("tBTCUSD", some { bids := [(12345, 1)], asks := [] })]
  listener := []
  requests := []
  nonce := 0
  log := []

/-- The client demoClient without any order book. -/
def noBookClient : Client := { demoClient with orderbooks := [] }

/-! ## Auxiliary facts -/

theorem lookupByChannelID_heartbeat (s : subscriptions) (n m : Int) (now : Nat) :
    lookupByChannelID (s.heartbeat n now) m = lookupByChannelID s m := rfl

theorem heartbeat_subs (s : subscriptions) (n : Int) (now : Nat) :
    (s.heartbeat n now).subs = s.subs := rfl

theorem heartbeat_heartbeat (s : subscriptions) (n : Int) (now : Nat) :
    (s.heartbeat n now).heartbeat n now = s.heartbeat n now := by
  simp [subscriptions.heartbeat, List.filter_cons, List.filter_filter]

theorem lastSeenOf_heartbeat_self (s : subscriptions) (n : Int) (now : Nat) :
    (s.heartbeat n now).lastSeenOf n = some now := by
  simp [subscriptions.heartbeat, subscriptions.lastSeenOf]

theorem find_filter_ne (l : List (Int × Nat)) (n m : Int) (h : m ≠ n) :
    (l.filter (fun p => p.1 != n)).find? (fun p => p.1 == m) = l.find? (fun p => p.1 == m) := by
  induction l with
  | nil => rfl
  | cons a l ih =>
    obtain ⟨a1, a2⟩ := a
    by_cases ha : a1 = n
    · subst ha
      have hm : ¬ a1 = m := fun h1 => h h1.symm
      simp [List.filter_cons, List.find?_cons, hm, ih]
    · by_cases hm : a1 = m
      · subst hm
        simp [List.filter_cons, List.find?_cons, ha]
      · simp [List.filter_cons, List.find?_cons, ha, hm, ih]

theorem lastSeenOf_heartbeat_other (s : subscriptions) (n m : Int) (now : Nat) (h : m ≠ n) :
    (s.heartbeat n now).lastSeenOf m = s.lastSeenOf m := by
  have hn : ¬ n = m := fun h1 => h h1.symm
  simp [subscriptions.heartbeat, subscriptions.lastSeenOf, List.find?_cons, hn,
    find_filter_ne _ _ _ h]

theorem uint32_eq_iff (x : Int) (k : Nat) : uint32 x = k ↔ x % 2 ^ 32 = (k : Int) := by
  unfold uint32
  omega

theorem uint32_add_two_pow (x : Int) : uint32 (x + 2 ^ 32) = uint32 x := by
  unfold uint32
  simp

theorem uint32_Checksum (env : Env) (ob : Orderbook) :
    uint32 (Orderbook.Checksum env ob : Int) = Orderbook.Checksum env ob := by
  unfold uint32 Orderbook.Checksum
  omega

theorem convertRaw_default (env : Env) (c : Client) (term : String) (raw : List JSON)
    (h : term ∉ convertRawTerms) :
    convertRaw env c term raw =
      ({ c with log := c.log ++ [.unhandledChannelData term] },
        some (.error (.termNotRecognized term))) := by
  unfold convertRaw
  split <;> first | rfl | exact absurd (by decide) h

/-- A checksum frame on a registered public channel is handed to handleChecksumChannel
after the heartbeat of the channel has been recorded. -/
theorem handleChannel_cs_frame (env : Env) (now : Nat) (c : Client) (n k : Int)
    (sub : subscription) (hlook : lookupByChannelID c.subscriptions n = .ok sub)
    (hpub : sub.Public = true) :
    handleChannel env now c (.arr [.num n, .str "cs", .num k]) =
      handleChecksumChannel env
        { c with subscriptions := c.subscriptions.heartbeat n now } n k := by
  simp [handleChannel, unmarshal, hlook, hpub]

/-- The success path of handleChecksumChannel. -/
theorem handleChecksumChannel_equal (env : Env) (c : Client) (n k : Int) (sub : subscription)
    (ob : Orderbook) (hlook : lookupByChannelID c.subscriptions n = .ok sub)
    (hbook : lookupOrderbook c.orderbooks sub.Request.Symbol = some (some ob))
    (heq : uint32 k = Orderbook.Checksum env ob) :
    handleChecksumChannel env c n k =
      ({ c with log := c.log ++ [.checksumSuccessful sub.Request.Symbol] }, .ret none) := by
  simp [handleChecksumChannel, hlook, hbook, heq]

/-- The mismatch path of handleChecksumChannel when the unsubscribe call fails. -/
theorem handleChecksumChannel_unsub_failed (env : Env) (c : Client) (n k : Int)
    (sub : subscription) (ob : Orderbook) (e : Error)
    (hlook : lookupByChannelID c.subscriptions n = .ok sub)
    (hbook : lookupOrderbook c.orderbooks sub.Request.Symbol = some (some ob))
    (hne : uint32 k ≠ Orderbook.Checksum env ob) (hun : env.unsubscribeErr n = some e) :
    handleChecksumChannel env c n k =
      ({ c with
          log := c.log ++
            [.checksumInvalid sub.Request.Symbol (uint32 k) (Orderbook.Checksum env ob)]
          requests := c.requests ++ [.unsubscribe n] }, .ret (some e)) := by
  simp [handleChecksumChannel, hlook, hbook, hne, sendUnsubscribeMessage, hun]

/-- The mismatch path of handleChecksumChannel when the subscribe call fails. -/
theorem handleChecksumChannel_sub_failed (env : Env) (c : Client) (n k : Int)
    (sub : subscription) (ob : Orderbook) (e : Error)
    (hlook : lookupByChannelID c.subscriptions n = .ok sub)
    (hbook : lookupOrderbook c.orderbooks sub.Request.Symbol = some (some ob))
    (hne : uint32 k ≠ Orderbook.Checksum env ob) (hun : env.unsubscribeErr n = none)
    (hsub : env.subscribeErr (newSubOf env c sub) = some e) :
    handleChecksumChannel env c n k =
      ({ c with
          log := c.log ++
            [.checksumInvalid sub.Request.Symbol (uint32 k) (Orderbook.Checksum env ob),
             .couldNotResubscribe e]
          requests := c.requests ++ [.unsubscribe n, .subscribe (newSubOf env c sub)]
          nonce := c.nonce + 1 }, .ret (some e)) := by
  unfold newSubOf at hsub
  simp [handleChecksumChannel, hlook, hbook, hne, sendUnsubscribeMessage, hun, GetNonce,
    Subscribe, hsub, newSubOf]

/-- The mismatch path of handleChecksumChannel when both calls succeed. -/
theorem handleChecksumChannel_recovered (env : Env) (c : Client) (n k : Int)
    (sub : subscription) (ob : Orderbook)
    (hlook : lookupByChannelID c.subscriptions n = .ok sub)
    (hbook : lookupOrderbook c.orderbooks sub.Request.Symbol = some (some ob))
    (hne : uint32 k ≠ Orderbook.Checksum env ob) (hun : env.unsubscribeErr n = none)
    (hsub : env.subscribeErr (newSubOf env c sub) = none) :
    handleChecksumChannel env c n k =
      ({ c with
          log := c.log ++
            [.checksumInvalid sub.Request.Symbol (uint32 k) (Orderbook.Checksum env ob)]
          requests := c.requests ++ [.unsubscribe n, .subscribe (newSubOf env c sub)]
          nonce := c.nonce + 1 }, .ret none) := by
  unfold newSubOf at hsub
  simp [handleChecksumChannel, hlook, hbook, hne, sendUnsubscribeMessage, hun, GetNonce,
    Subscribe, hsub, newSubOf]

/-! ## Malformed frames -/

/-- Claim C1: handleChannel does not return normally on every frame that parses as a JSON
array.  On the registered public channel 5 the frames [5, "cs"] and [5, "te"] read
raw[2] of a slice of length 2, the frame [5, "te", 2] asserts that the number 2 is a
slice, and on the registered private channel 9 the frame [9, 3, [1]] asserts that the
number 3 is a string: each of the four runs ends in a panic. -/
theorem handleChannel_panics_on_malformed_frame :
    (handleChannel demoEnv 7 demoClient (.arr [.num 5, .str "cs"])).2
        = .panic "index out of range [2]" ∧
    (handleChannel demoEnv 7 demoClient (.arr [.num 5, .str "te"])).2
        = .panic "index out of range [2]" ∧
    (handleChannel demoEnv 7 demoClient (.arr [.num 5, .str "te", .num 2])).2
        = .panic "interface conversion: interface is not a slice" ∧
    (handleChannel demoEnv 7 demoClient (.arr [.num 9, .num 3, .arr [.num 1]])).2
        = .panic "interface conversion: interface is not string" :=
  ⟨rfl, rfl, rfl, rfl⟩

/-! ## Frames on an unknown channel -/

/-- Claim C3: a frame of length at least 2 whose first element is a number that
lookupByChannelID does not resolve makes handleChannel return the lookup error and
leaves the whole client state (heartbeat record, listener, requests, order books)
as it was; processing the frame any number of times, at any times, gives back the
initial state. -/
theorem handleChannel_unknown_channel_noop (env : Env) (c : Client) (n : Int)
    (rest : List JSON) (e : Error) (hlen : 1 ≤ rest.length)
    (hlook : lookupByChannelID c.subscriptions n = .error e) :
    (∀ now, handleChannel env now c (.arr (.num n :: rest)) = (c, .ret (some e))) ∧
    (∀ times : List Nat,
      times.foldl (fun s now => (handleChannel env now s (.arr (.num n :: rest))).1) c = c) := by
  have hstep : ∀ now, handleChannel env now c (.arr (.num n :: rest)) = (c, .ret (some e)) := by
    intro now
    have hl : ¬ (rest.length + 1 < 2) := by omega
    simp [handleChannel, unmarshal, hlook, hl]
  refine ⟨hstep, ?_⟩
  intro times
  induction times with
  | nil => rfl
  | cons t ts ih => simpa [List.foldl, hstep t] using ih

theorem handleChannel_unknown_channel_noop_witness :
    (∀ now, handleChannel demoEnv now demoClient (.arr (.num 6 :: [.str "hb"]))
        = (demoClient, .ret (some (.notSubscribed 6)))) ∧
    (∀ times : List Nat,
      times.foldl
        (fun s now => (handleChannel demoEnv now s (.arr (.num 6 :: [.str "hb"]))).1)
        demoClient = demoClient) :=
  handleChannel_unknown_channel_noop demoEnv demoClient 6 [.str "hb"] (.notSubscribed 6)
    (by decide) rfl

/-! ## Heartbeat frames -/

/-- Claim C7: on a heartbeat frame [n, "hb"] whose channel id resolves to a subscription,
public or private, handleChannel returns nil and the client state differs from the
initial one only in the heartbeat record, where the timestamp of channel n is set to
the current time and the timestamp of every other channel is kept; the listener, the
requests, the registry entries and the order books are unchanged. -/
theorem handleChannel_heartbeat_frame (env : Env) (now : Nat) (c : Client) (n : Int)
    (sub : subscription) (hlook : lookupByChannelID c.subscriptions n = .ok sub) :
    handleChannel env now c (.arr [.num n, .str "hb"]) =
        ({ c with subscriptions :=
            { subs := c.subscriptions.subs
              lastSeen := (c.subscriptions.heartbeat n now).lastSeen } }, .ret none) ∧
    (c.subscriptions.heartbeat n now).lastSeenOf n = some now ∧
    (∀ m, m ≠ n →
      (c.subscriptions.heartbeat n now).lastSeenOf m = c.subscriptions.lastSeenOf m) := by
  refine ⟨?_, lastSeenOf_heartbeat_self _ _ _, fun m hm => lastSeenOf_heartbeat_other _ _ _ _ hm⟩
  cases hpub : sub.Public with
  | true => simp [handleChannel, unmarshal, hlook, hpub, subscriptions.heartbeat]
  | false =>
    have hh := heartbeat_heartbeat c.subscriptions n now
    simp [handleChannel, unmarshal, hlook, hpub, handlePrivateChannel, JSON.asString,
      handleHeartbeat, hh]
    simp [subscriptions.heartbeat]

theorem handleChannel_heartbeat_frame_witness :
    (handleChannel demoEnv 7 demoClient (.arr [.num 9, .str "hb"]) =
        ({ demoClient with subscriptions :=
            { subs := demoClient.subscriptions.subs
              lastSeen := (demoClient.subscriptions.heartbeat 9 7).lastSeen } }, .ret none) ∧
    (demoClient.subscriptions.heartbeat 9 7).lastSeenOf 9 = some 7 ∧
    (∀ m, m ≠ 9 →
      (demoClient.subscriptions.heartbeat 9 7).lastSeenOf m
        = demoClient.subscriptions.lastSeenOf m)) :=
  handleChannel_heartbeat_frame demoEnv 7 demoClient 9 accountSub rfl

/-! ## Checksum frames -/

/-- Claim C5: on a checksum frame [n, "cs", k] on a registered public channel, where the
order book of the subscription's symbol exists and its checksum equals k, handleChannel
returns nil, sends no unsubscribe and no subscribe request and publishes nothing to the
listener. -/
theorem handleChannel_checksum_equal (env : Env) (now : Nat) (c : Client) (n k : Int)
    (sub : subscription) (ob : Orderbook)
    (hlook : lookupByChannelID c.subscriptions n = .ok sub) (hpub : sub.Public = true)
    (hbook : lookupOrderbook c.orderbooks sub.Request.Symbol = some (some ob))
    (heq : (Orderbook.Checksum env ob : Int) = k) :
    (handleChannel env now c (.arr [.num n, .str "cs", .num k])).2 = .ret none ∧
    (handleChannel env now c (.arr [.num n, .str "cs", .num k])).1.requests = c.requests ∧
    (handleChannel env now c (.arr [.num n, .str "cs", .num k])).1.listener = c.listener := by
  have hu : uint32 k = Orderbook.Checksum env ob := by
    rw [← heq]
    exact uint32_Checksum env ob
  have h1 := handleChecksumChannel_equal env
    { c with subscriptions := c.subscriptions.heartbeat n now } n k sub ob hlook hbook hu
  rw [handleChannel_cs_frame env now c n k sub hlook hpub, h1]
  exact ⟨rfl, rfl, rfl⟩

theorem handleChannel_checksum_equal_witness :
    (handleChannel demoEnv 7 demoClient (.arr [.num 5, .str "cs", .num 12345])).2
      = .ret none ∧
    (handleChannel demoEnv 7 demoClient (.arr [.num 5, .str "cs", .num 12345])).1.requests
      = demoClient.requests ∧
    (handleChannel demoEnv 7 demoClient (.arr [.num 5, .str "cs", .num 12345])).1.listener
      = demoClient.listener :=
  handleChannel_checksum_equal demoEnv 7 demoClient 5 12345 bookSub
    { bids := [(12345, 1)], asks := [] } rfl rfl rfl (by decide)

/-- The requests of the mismatch path: one unsubscribe, followed by one subscribe exactly
when the unsubscribe did not fail. -/
theorem handleChecksumChannel_mismatch_requests (env : Env) (c : Client) (n k : Int)
    (sub : subscription) (ob : Orderbook)
    (hlook : lookupByChannelID c.subscriptions n = .ok sub)
    (hbook : lookupOrderbook c.orderbooks sub.Request.Symbol = some (some ob))
    (hne : uint32 k ≠ Orderbook.Checksum env ob) :
    (∀ e, env.unsubscribeErr n = some e →
      (handleChecksumChannel env c n k).1.requests = c.requests ++ [.unsubscribe n]) ∧
    (env.unsubscribeErr n = none →
      (handleChecksumChannel env c n k).1.requests
          = c.requests ++ [.unsubscribe n, .subscribe (newSubOf env c sub)] ∧
      (handleChecksumChannel env c n k).1.nonce = c.nonce + 1) := by
  constructor
  · intro e hun
    rw [handleChecksumChannel_unsub_failed env c n k sub ob e hlook hbook hne hun]
  · intro hun
    cases hsub : env.subscribeErr (newSubOf env c sub) with
    | none =>
      rw [handleChecksumChannel_recovered env c n k sub ob hlook hbook hne hun hsub]
      exact ⟨rfl, rfl⟩
    | some e =>
      rw [handleChecksumChannel_sub_failed env c n k sub ob e hlook hbook hne hun hsub]
      exact ⟨rfl, rfl⟩

/-- The mismatch path always records a request. -/
theorem handleChecksumChannel_mismatch_requests_ne (env : Env) (c : Client) (n k : Int)
    (sub : subscription) (ob : Orderbook)
    (hlook : lookupByChannelID c.subscriptions n = .ok sub)
    (hbook : lookupOrderbook c.orderbooks sub.Request.Symbol = some (some ob))
    (hne : uint32 k ≠ Orderbook.Checksum env ob) :
    (handleChecksumChannel env c n k).1.requests ≠ c.requests := by
  obtain ⟨h1, h2⟩ := handleChecksumChannel_mismatch_requests env c n k sub ob hlook hbook hne
  cases hun : env.unsubscribeErr n with
  | none => rw [(h2 hun).1]; simp
  | some e => rw [h1 e hun]; simp

/-- Claim C4, as amended: on a checksum frame for a registered channel whose symbol has an
order book with a checksum different from the frame's checksum modulo 2^32,
handleChecksumChannel issues exactly one unsubscribe request for the channel id; if that
request fails nothing else is sent, and if it does not fail it is followed by exactly one
subscribe request, which carries the event, channel kind and symbol of the old
subscription and the next identifier of the nonce source, which is thereby consumed. -/
theorem handleChecksumChannel_mismatch_recovery (env : Env) (c : Client) (n k : Int)
    (sub : subscription) (ob : Orderbook)
    (hlook : lookupByChannelID c.subscriptions n = .ok sub)
    (hbook : lookupOrderbook c.orderbooks sub.Request.Symbol = some (some ob))
    (hne : k % 2 ^ 32 ≠ (Orderbook.Checksum env ob : Int)) :
    (∀ e, env.unsubscribeErr n = some e →
      (handleChecksumChannel env c n k).1.requests = c.requests ++ [.unsubscribe n]) ∧
    (env.unsubscribeErr n = none →
      (handleChecksumChannel env c n k).1.requests
          = c.requests ++
            [.unsubscribe n,
             .subscribe
               { SubID := env.nonceAt c.nonce
                 Event := sub.Request.Event
                 Channel := sub.Request.Channel
                 Symbol := sub.Request.Symbol }] ∧
      (handleChecksumChannel env c n k).1.nonce = c.nonce + 1) :=
  handleChecksumChannel_mismatch_requests env c n k sub ob hlook hbook
    (fun h => hne ((uint32_eq_iff k _).mp h))

theorem handleChecksumChannel_mismatch_recovery_witness :
    (∀ e, demoEnv.unsubscribeErr 5 = some e →
      (handleChecksumChannel demoEnv demoClient 5 999).1.requests
        = demoClient.requests ++ [.unsubscribe 5]) ∧
    (demoEnv.unsubscribeErr 5 = none →
      (handleChecksumChannel demoEnv demoClient 5 999).1.requests
          = demoClient.requests ++
            [.unsubscribe 5,
             .subscribe
               { SubID := demoEnv.nonceAt demoClient.nonce
                 Event := bookSub.Request.Event
                 Channel := bookSub.Request.Channel
                 Symbol := bookSub.Request.Symbol }] ∧
      (handleChecksumChannel demoEnv demoClient 5 999).1.nonce = demoClient.nonce + 1) :=
  handleChecksumChannel_mismatch_recovery demoEnv demoClient 5 999 bookSub
    { bids := [(12345, 1)], asks := [] } rfl rfl (by decide)

/-- Claim C4, as stated, fails.  The local checksum of the book of channel 5 is 12345.
With a transport that rejects the unsubscribe, the frame checksum 999 leads to the
unsubscribe request alone, without a subscribe request; and the frame checksum
12345 - 2^32, which is not equal to 12345, leads to no request at all. -/
theorem handleChecksumChannel_mismatch_counterexample :
    Orderbook.Checksum demoEnv { bids := [(12345, 1)], asks := [] } = 12345 ∧
    ((999 : Int) ≠ 12345 ∧
      (handleChecksumChannel unsubFailEnv demoClient 5 999).1.requests = [.unsubscribe 5]) ∧
    ((12345 - 2 ^ 32 : Int) ≠ 12345 ∧
      (handleChecksumChannel demoEnv demoClient 5 (12345 - 2 ^ 32)).1.requests = []) :=
  ⟨by decide, ⟨by decide, rfl⟩, ⟨by decide, rfl⟩⟩

/-- Claim C6, as amended: on a checksum frame for a registered channel whose symbol has no
entry in the order-book map, handleChecksumChannel runs no recovery: it returns nil and
leaves the client state, in particular the requests, unchanged. -/
theorem handleChecksumChannel_absent_book (env : Env) (c : Client) (n k : Int)
    (sub : subscription) (hlook : lookupByChannelID c.subscriptions n = .ok sub)
    (hbook : lookupOrderbook c.orderbooks sub.Request.Symbol = none) :
    handleChecksumChannel env c n k = (c, .ret none) := by
  simp [handleChecksumChannel, hlook, hbook]

theorem handleChecksumChannel_absent_book_witness :
    handleChecksumChannel demoEnv noBookClient 5 999 = (noBookClient, .ret none) :=
  handleChecksumChannel_absent_book demoEnv noBookClient 5 999 bookSub rfl rfl

/-- Claim C6, as stated, fails.  For the checksum frame [5, "cs", 999] the client without
an order book sends no request, whereas the client whose book has checksum 12345 sends
the unsubscribe and the subscribe request. -/
theorem handleChecksumChannel_absent_book_counterexample :
    lookupOrderbook noBookClient.orderbooks bookSub.Request.Symbol = none ∧
    (handleChecksumChannel demoEnv noBookClient 5 999).1.requests = [] ∧
    (handleChecksumChannel demoEnv demoClient 5 999).1.requests =
      [.unsubscribe 5,
       .subscribe { SubID := "n", Event := "subscribe", Channel := "book", Symbol := "tBTCUSD" }] :=
  ⟨rfl, rfl, rfl⟩

/-- Claim C9: on a checksum mismatch (the order book exists and its checksum differs from
the frame's checksum modulo 2^32) a failure of the recovery is returned to the caller by
handleChecksumChannel and by handleChannel: if the unsubscribe request fails its error is
returned and no subscribe request is issued; if the unsubscribe succeeds and the
subscribe request fails the subscribe error is returned; and nil is returned only if
both requests succeeded. -/
theorem checksum_recovery_failure_surfaced (env : Env) (now : Nat) (c : Client) (n k : Int)
    (sub : subscription) (ob : Orderbook)
    (hlook : lookupByChannelID c.subscriptions n = .ok sub) (hpub : sub.Public = true)
    (hbook : lookupOrderbook c.orderbooks sub.Request.Symbol = some (some ob))
    (hne : k % 2 ^ 32 ≠ (Orderbook.Checksum env ob : Int)) :
    (∀ e, env.unsubscribeErr n = some e →
      (handleChecksumChannel env c n k).2 = .ret (some e) ∧
      (handleChecksumChannel env c n k).1.requests = c.requests ++ [.unsubscribe n] ∧
      (handleChannel env now c (.arr [.num n, .str "cs", .num k])).2 = .ret (some e) ∧
      (handleChannel env now c (.arr [.num n, .str "cs", .num k])).1.requests
        = c.requests ++ [.unsubscribe n]) ∧
    (∀ e, env.unsubscribeErr n = none → env.subscribeErr (newSubOf env c sub) = some e →
      (handleChecksumChannel env c n k).2 = .ret (some e) ∧
      (handleChannel env now c (.arr [.num n, .str "cs", .num k])).2 = .ret (some e)) ∧
    ((handleChecksumChannel env c n k).2 = .ret none →
      env.unsubscribeErr n = none ∧ env.subscribeErr (newSubOf env c sub) = none) ∧
    ((handleChannel env now c (.arr [.num n, .str "cs", .num k])).2 = .ret none →
      env.unsubscribeErr n = none ∧ env.subscribeErr (newSubOf env c sub) = none) := by
  have hu : uint32 k ≠ Orderbook.Checksum env ob := fun h => hne ((uint32_eq_iff k _).mp h)
  have hcs := handleChannel_cs_frame env now c n k sub hlook hpub
  have hlook1 : lookupByChannelID
      ({ c with subscriptions := c.subscriptions.heartbeat n now } : Client).subscriptions n
        = .ok sub := hlook
  have hbook1 : lookupOrderbook
      ({ c with subscriptions := c.subscriptions.heartbeat n now } : Client).orderbooks
        sub.Request.Symbol = some (some ob) := hbook
  cases hun : env.unsubscribeErr n with
  | some e0 =>
    have h0 := handleChecksumChannel_unsub_failed env c n k sub ob e0 hlook hbook hu hun
    have h1 := handleChecksumChannel_unsub_failed env _ n k sub ob e0 hlook1 hbook1 hu hun
    rw [hcs, h0, h1]
    simp
  | none =>
    cases hsub : env.subscribeErr (newSubOf env c sub) with
    | some e0 =>
      have h0 := handleChecksumChannel_sub_failed env c n k sub ob e0 hlook hbook hu hun hsub
      have h1 := handleChecksumChannel_sub_failed env _ n k sub ob e0 hlook1 hbook1 hu hun hsub
      rw [hcs, h0, h1]
      simp
    | none =>
      have h0 := handleChecksumChannel_recovered env c n k sub ob hlook hbook hu hun hsub
      have h1 := handleChecksumChannel_recovered env _ n k sub ob hlook1 hbook1 hu hun hsub
      rw [hcs, h0, h1]
      simp

theorem checksum_recovery_failure_surfaced_witness :
    (∀ e, unsubFailEnv.unsubscribeErr 5 = some e →
      (handleChecksumChannel unsubFailEnv demoClient 5 999).2 = .ret (some e) ∧
      (handleChecksumChannel unsubFailEnv demoClient 5 999).1.requests
        = demoClient.requests ++ [.unsubscribe 5] ∧
      (handleChannel unsubFailEnv 7 demoClient (.arr [.num 5, .str "cs", .num 999])).2
        = .ret (some e) ∧
      (handleChannel unsubFailEnv 7 demoClient (.arr [.num 5, .str "cs", .num 999])).1.requests
        = demoClient.requests ++ [.unsubscribe 5]) ∧
    (∀ e, unsubFailEnv.unsubscribeErr 5 = none →
      unsubFailEnv.subscribeErr (newSubOf unsubFailEnv demoClient bookSub) = some e →
      (handleChecksumChannel unsubFailEnv demoClient 5 999).2 = .ret (some e) ∧
      (handleChannel unsubFailEnv 7 demoClient (.arr [.num 5, .str "cs", .num 999])).2
        = .ret (some e)) ∧
    ((handleChecksumChannel unsubFailEnv demoClient 5 999).2 = .ret none →
      unsubFailEnv.unsubscribeErr 5 = none ∧
      unsubFailEnv.subscribeErr (newSubOf unsubFailEnv demoClient bookSub) = none) ∧
    ((handleChannel unsubFailEnv 7 demoClient (.arr [.num 5, .str "cs", .num 999])).2
        = .ret none →
      unsubFailEnv.unsubscribeErr 5 = none ∧
      unsubFailEnv.subscribeErr (newSubOf unsubFailEnv demoClient bookSub) = none) :=
  checksum_recovery_failure_surfaced unsubFailEnv 7 demoClient 5 999 bookSub
    { bids := [(12345, 1)], asks := [] } rfl rfl rfl (by decide)

/-- Claim C10: the checksum of the frame is compared with the local one modulo 2^32.  For
every integer checksum x and every existing order book whose (unsigned 32-bit) checksum
is k, handleChecksumChannel takes the success path, logging the successful verification
and returning nil without any recovery, if and only if x mod 2^32 = k; and it treats x
and x + 2^32 alike. -/
theorem checksum_compared_modulo_two_pow_32 (env : Env) (c : Client) (n x : Int)
    (sub : subscription) (ob : Orderbook) (k : Nat)
    (hlook : lookupByChannelID c.subscriptions n = .ok sub)
    (hbook : lookupOrderbook c.orderbooks sub.Request.Symbol = some (some ob))
    (hk : Orderbook.Checksum env ob = k) :
    (handleChecksumChannel env c n x =
        ({ c with log := c.log ++ [.checksumSuccessful sub.Request.Symbol] }, .ret none)
      ↔ x % 2 ^ 32 = (k : Int)) ∧
    ((handleChecksumChannel env c n x).1.requests = c.requests ↔ x % 2 ^ 32 = (k : Int)) ∧
    handleChecksumChannel env c n (x + 2 ^ 32) = handleChecksumChannel env c n x := by
  have hok : x % 2 ^ 32 = (k : Int) → handleChecksumChannel env c n x =
      ({ c with log := c.log ++ [.checksumSuccessful sub.Request.Symbol] }, .ret none) := by
    intro h
    exact handleChecksumChannel_equal env c n x sub ob hlook hbook
      (hk ▸ (uint32_eq_iff x k).mpr h)
  have hreq : (handleChecksumChannel env c n x).1.requests = c.requests →
      x % 2 ^ 32 = (k : Int) := by
    intro h
    by_contra hne
    have hu : uint32 x ≠ Orderbook.Checksum env ob := by
      rw [hk]
      exact fun h1 => hne ((uint32_eq_iff x k).mp h1)
    exact handleChecksumChannel_mismatch_requests_ne env c n x sub ob hlook hbook hu h
  refine ⟨⟨fun h => hreq (by rw [h]), hok⟩, ⟨hreq, fun h => by rw [hok h]⟩, ?_⟩
  simp only [handleChecksumChannel, uint32_add_two_pow]

theorem checksum_compared_modulo_two_pow_32_witness :
    (handleChecksumChannel demoEnv demoClient 5 (12345 - 2 ^ 32) =
        ({ demoClient with
            log := demoClient.log ++ [.checksumSuccessful bookSub.Request.Symbol] }, .ret none)
      ↔ (12345 - 2 ^ 32 : Int) % 2 ^ 32 = ((12345 : Nat) : Int)) ∧
    ((handleChecksumChannel demoEnv demoClient 5 (12345 - 2 ^ 32)).1.requests
        = demoClient.requests
      ↔ (12345 - 2 ^ 32 : Int) % 2 ^ 32 = ((12345 : Nat) : Int)) ∧
    handleChecksumChannel demoEnv demoClient 5 (12345 - 2 ^ 32 + 2 ^ 32)
      = handleChecksumChannel demoEnv demoClient 5 (12345 - 2 ^ 32) :=
  checksum_compared_modulo_two_pow_32 demoEnv demoClient 5 (12345 - 2 ^ 32) bookSub
    { bids := [(12345, 1)], asks := [] } 12345 rfl rfl (by decide)

/-! ## Private frames with an unrecognized term -/

/-- Claim C2, as amended: on a private frame [n, tag, data] on a registered private
channel, where data is a non-empty array and tag is not a term handled by convertRaw,
handleChannel returns nil, logs the unhandled term and publishes exactly one value to the
listener, the error "term not recognized" itself, and no decoded event; besides the
heartbeat timestamp of channel n the registry, the order books, the requests and the
nonce source are unchanged, so that every channel id resolves as before. -/
theorem handleChannel_unrecognized_term (env : Env) (now : Nat) (c : Client) (n : Int)
    (sub : subscription) (tag : String) (d : JSON) (ds : List JSON)
    (hlook : lookupByChannelID c.subscriptions n = .ok sub) (hpriv : sub.Public = false)
    (htag : tag ∉ convertRawTerms) :
    handleChannel env now c (.arr [.num n, .str tag, .arr (d :: ds)]) =
        ({ c with
            subscriptions :=
              { subs := c.subscriptions.subs
                lastSeen := (c.subscriptions.heartbeat n now).lastSeen }
            log := c.log ++ [.unhandledChannelData tag]
            listener := c.listener ++ [.error (.termNotRecognized tag)] }, .ret none) ∧
    (∀ m, lookupByChannelID
        (handleChannel env now c (.arr [.num n, .str tag, .arr (d :: ds)])).1.subscriptions m
      = lookupByChannelID c.subscriptions m) := by
  have hhb : ¬ tag = "hb" := fun h => htag (h ▸ by decide)
  have hmain : handleChannel env now c (.arr [.num n, .str tag, .arr (d :: ds)]) =
        ({ c with
            subscriptions :=
              { subs := c.subscriptions.subs
                lastSeen := (c.subscriptions.heartbeat n now).lastSeen }
            log := c.log ++ [.unhandledChannelData tag]
            listener := c.listener ++ [.error (.termNotRecognized tag)] }, .ret none) := by
    simp [handleChannel, unmarshal, hlook, hpriv, handlePrivateChannel, JSON.asString, hhb,
      handlePrivateDataMessage, convertRaw_default env _ tag (d :: ds) htag,
      subscriptions.heartbeat]
  refine ⟨hmain, fun m => ?_⟩
  rw [hmain]
  rfl

theorem handleChannel_unrecognized_term_witness :
    handleChannel demoEnv 7 demoClient (.arr [.num 9, .str "zz", .arr (.num 1 :: [.num 2])]) =
        ({ demoClient with
            subscriptions :=
              { subs := demoClient.subscriptions.subs
                lastSeen := (demoClient.subscriptions.heartbeat 9 7).lastSeen }
            log := demoClient.log ++ [.unhandledChannelData "zz"]
            listener := demoClient.listener ++ [.error (.termNotRecognized "zz")] },
          .ret none) ∧
    (∀ m, lookupByChannelID
        (handleChannel demoEnv 7 demoClient
          (.arr [.num 9, .str "zz", .arr (.num 1 :: [.num 2])])).1.subscriptions m
      = lookupByChannelID demoClient.subscriptions m) :=
  handleChannel_unrecognized_term demoEnv 7 demoClient 9 accountSub "zz" (.num 1) [.num 2]
    rfl rfl (by decide)

/-- Claim C2, as stated, fails.  On the frame [9, "zz", [1, 2]] for the registered private
channel 9, with an empty listener before, the listener holds one value afterwards, the
error for the unrecognized term, and not zero values. -/
theorem handleChannel_unrecognized_term_counterexample :
    "zz" ∉ convertRawTerms ∧
    demoClient.listener = [] ∧
    (handleChannel demoEnv 7 demoClient
      (.arr [.num 9, .str "zz", .arr [.num 1, .num 2]])).1.listener
        = [.error (.termNotRecognized "zz")] ∧
    (handleChannel demoEnv 7 demoClient
      (.arr [.num 9, .str "zz", .arr [.num 1, .num 2]])).1.listener.length = 1 :=
  ⟨by decide, rfl, rfl, rfl⟩

/-! ## Public snapshot frames -/

/-- Claim C8, as amended: on a public snapshot payload (a non-empty array whose first
element is an array) for a channel kind that has a factory, when the conversion of the
inner arrays and the snapshot decode succeed, handlePublicChannel publishes to the
listener the single snapshot message that BuildSnapshot returned for the inner arrays,
or nothing if that message is nil: at most one value, whatever the number of inner
arrays.  It returns nil and stores the order books that BuildSnapshot left. -/
theorem handlePublicChannel_snapshot_one_message (env : Env) (c : Client) (chanID : Int)
    (channel objType : String) (a : List JSON) (rest : List JSON) (raw_msg : JSON)
    (factory : Factory) (items : List (List JSON))
    (obs : List (String × Option Orderbook)) (msg : Option Value)
    (hfac : env.factories channel = some factory)
    (hconv : env.ToInterfaceArray (.arr a :: rest) = some items)
    (hbuild : factory.BuildSnapshot c.orderbooks chanID items raw_msg = (obs, .ok msg)) :
    handlePublicChannel env c chanID channel objType (.arr a :: rest) raw_msg =
        ({ c with orderbooks := obs, listener := c.listener ++ msg.toList }, .ret none) ∧
    (handlePublicChannel env c chanID channel objType (.arr a :: rest) raw_msg).1.listener.length
      ≤ c.listener.length + 1 := by
  have hmain : handlePublicChannel env c chanID channel objType (.arr a :: rest) raw_msg =
      ({ c with orderbooks := obs, listener := c.listener ++ msg.toList }, .ret none) := by
    cases msg with
    | none => simp [handlePublicChannel, hfac, hconv, hbuild]
    | some m => simp [handlePublicChannel, hfac, hconv, hbuild]
  refine ⟨hmain, ?_⟩
  rw [hmain]
  cases msg <;> simp

theorem handlePublicChannel_snapshot_one_message_witness :
    handlePublicChannel demoEnv demoClient 5 "book" "" (.arr [.num 1] :: [.arr [.num 2]])
        (.arr [.num 5, .arr [.arr [.num 1], .arr [.num 2]]]) =
        ({ demoClient with
            orderbooks := demoClient.orderbooks
            listener := demoClient.listener ++
              (some (Value.typed "Snapshot" [.arr [.num 1], .arr [.num 2]])).toList },
          .ret none) ∧
    (handlePublicChannel demoEnv demoClient 5 "book" "" (.arr [.num 1] :: [.arr [.num 2]])
        (.arr [.num 5, .arr [.arr [.num 1], .arr [.num 2]]])).1.listener.length
      ≤ demoClient.listener.length + 1 :=
  handlePublicChannel_snapshot_one_message demoEnv demoClient 5 "book" "" [.num 1]
    [.arr [.num 2]] (.arr [.num 5, .arr [.arr [.num 1], .arr [.num 2]]]) demoFactory
    [[.num 1], [.num 2]] demoClient.orderbooks
    (some (.typed "Snapshot" [.arr [.num 1], .arr [.num 2]])) rfl rfl rfl

/-- Claim C8, as stated, fails.  The snapshot frame [5, [[1], [2]]] on the book channel 5
has two inner arrays and its decode succeeds, yet the listener, empty before, holds one
value afterwards (the snapshot message), not two. -/
theorem handlePublicChannel_snapshot_counterexample :
    demoClient.listener = [] ∧
    (handlePublicChannel demoEnv demoClient 5 "book" "" [.arr [.num 1], .arr [.num 2]]
        (.arr [.num 5, .arr [.arr [.num 1], .arr [.num 2]]])).2 = .ret none ∧
    (handlePublicChannel demoEnv demoClient 5 "book" "" [.arr [.num 1], .arr [.num 2]]
        (.arr [.num 5, .arr [.arr [.num 1], .arr [.num 2]]])).1.listener
      = [.typed "Snapshot" [.arr [.num 1], .arr [.num 2]]] ∧
    (handlePublicChannel demoEnv demoClient 5 "book" "" [.arr [.num 1], .arr [.num 2]]
        (.arr [.num 5, .arr [.arr [.num 1], .arr [.num 2]]])).1.listener.length ≠ 2 :=
  ⟨rfl, rfl, rfl, by decide⟩

end Websocket
